import Mathlib

/-
Verification of the Function Cloud (FC) library core against its design
specification.  The definitions below are a shallow embedding of the Python
sources under src/function_cloud/: pure functions become Lean functions,
the mutable per-function deployment state becomes explicit state passing,
Python exceptions become an explicit error type, and the external
collaborators (the Modal compute platform, the Groq enrichment provider,
the hashlib digest, the json parser, the system clock and random source)
become explicit oracle parameters.  Machine-level details that the claims
do not touch (byte-level file formats, the HTTP transport) are not modelled.
-/

/-- Python exceptions that the embedded code can raise.  Each constructor
stands for the exception class actually raised at the corresponding point
in the source. -/
inductive PyError where
  | oserror     : PyError  -- inspect.getsource failing (OSError/TypeError)
  | importError : PyError  -- a missing optional dependency (ImportError)
  | valueError  : PyError  -- ValueError (e.g. get_url before deployment)
  deriving DecidableEq, Repr

/-- An import statement found by ast.walk over the parsed source, as consumed
by DependencyAnalyzer.analyze_imports: ast.Import carries a list of dotted
module names, ast.ImportFrom carries an optional dotted module (None for a
bare relative import such as from . import x). -/
inductive ImportNode where
  | imp (names : List String) : ImportNode
  | impFrom (module : Option String) : ImportNode
  deriving DecidableEq, Repr

/-- The retrievable source of a Python function: the raw text (hashed by the
URL manager and sent to the enrichment provider) together with the import
statements that ast.parse finds in it. -/
structure PySource where
  text : String
  importNodes : List ImportNode
  deriving DecidableEq, Repr

/-- A Python function object as the FC library sees it: its dunder name and
module attributes (none when the attribute access raises), and the result of
inspect.getsource (none when the source text can not be retrieved, in which
case inspect.getsource raises OSError/TypeError). -/
structure PyFunc where
  name : Option String
  module : Option String
  source : Option PySource
  deriving DecidableEq, Repr

/-- Python s.split(sep)[0]: the first segment of a dotted module name. -/
def firstSegment (s : String) : String :=
  (s.splitOn ".").headD s

/-- The module names one ImportNode contributes to the import set
(dependency_analyzer.py lines 44-50): for ast.Import every listed name
contributes its first dotted segment, for ast.ImportFrom the module does,
when present. -/
def importNodeNames : ImportNode → List String
  | ImportNode.imp names => names.map firstSegment
  | ImportNode.impFrom (some m) => [firstSegment m]
  | ImportNode.impFrom none => []

/-- DependencyAnalyzer.analyze_imports (dependency_analyzer.py lines 29-52):
inspect.getsource is called with no exception handler, so an unretrievable
source propagates the OSError/TypeError; otherwise the set of first segments
of all imported module names is returned.  The Python set is represented as
a duplicate-free list; theorems compare such lists through toFinset. -/
def analyze_imports (func : PyFunc) : Except PyError (List String) :=
  match func.source with
  | none => Except.error PyError.oserror
  | some src => Except.ok (src.importNodes.flatMap importNodeNames).dedup

/-- A function whose source text can not be retrieved, e.g. one constructed
dynamically or defined interactively. -/
def dynamicFunc : PyFunc :=
  { name := some "dyn", module := some "__main__", source := none }

/-- C3 counterexample: for a function whose source can not be retrieved,
analyze_imports does not return the empty set (it raises the retrieval
error), refuting the claim that it returns an empty set rather than
raising. -/
theorem c3_counterexample :
    analyze_imports dynamicFunc ≠ Except.ok ([] : List String) := by
  simp [analyze_imports, dynamicFunc]

/-- C3 amended: for every function whose source text can not be retrieved,
analyze_imports propagates the retrieval error raised by inspect.getsource
(OSError/TypeError) instead of returning an empty set of imports. -/
theorem c3_theorem (func : PyFunc) (h : func.source = none) :
    analyze_imports func = Except.error PyError.oserror := by
  simp [analyze_imports, h]

/-- C3 witness: the amended statement evaluated on a concrete dynamically
constructed function. -/
theorem c3_witness :
    analyze_imports dynamicFunc = Except.error PyError.oserror :=
  c3_theorem dynamicFunc rfl

/-- The slice of FCConfig (config.py) that DependencyAnalyzer.enhance_with_llm
reads, together with the module-level HAS_GROQ flag of dependency_analyzer.py
(whether the groq package imported successfully).  llm_api_key is none when
the config attribute is None; Python truthiness also treats the empty string
as unset. -/
structure LLMConfig where
  llm_enabled : Bool
  llm_api_key : Option String
  llm_provider : String
  has_groq : Bool
  deriving DecidableEq, Repr

/-- Python truthiness of the llm_api_key attribute: None and the empty string
are falsy. -/
def apiKeyTruthy (cfg : LLMConfig) : Bool :=
  match cfg.llm_api_key with
  | none => false
  | some s => s ≠ ""

/-- Outcome of the Groq enrichment collaborator for one request, as the code
distinguishes them: creating the client raised (caught at line 106), the
chat-completion request raised (caught at line 166), or a response whose
message content is the given raw text. -/
inductive GroqReply where
  | clientError : GroqReply
  | apiError : GroqReply
  | response (text : String) : GroqReply
  deriving DecidableEq, Repr

/-- A JSON object as json.loads hands it to enhance_with_llm: the packages
field is some list exactly when the field is present and is a list (entries
rendered through str, none for JSON null); other fields are carried through
untouched. -/
structure LLMJson where
  packages : Option (List (Option String))
  system_dependencies : List String
  python_version : Option String
  deriving DecidableEq, Repr

/-- The dependency manifest enhance_with_llm returns.  The fallback paths of
the source return a dict holding only the packages key; absence of the other
keys is modelled by the empty list and none. -/
structure Manifest where
  packages : List String
  system_dependencies : List String
  python_version : Option String
  deriving DecidableEq, Repr

/-- Python text.find(c): index of the first occurrence, none for -1. -/
def pyFind (s : String) (c : Char) : Option Nat :=
  s.data.findIdx? (· = c)

/-- Python text.rfind(c): index of the last occurrence, none for -1. -/
def pyRFind (s : String) (c : Char) : Option Nat :=
  (s.data.reverse.findIdx? (· = c)).map (fun i => s.data.length - 1 - i)

/-- The JSON payload located inside the raw response text
(dependency_analyzer.py lines 141-144): the slice from the first left brace
to the last right brace, provided the first left brace exists and ends before
the character following the last right brace. -/
def jsonSpan (s : String) : Option String :=
  match pyFind s '\x7b', pyRFind s '\x7d' with
  | some i, some j => if i ≤ j then some (String.mk ((s.data.drop i).take (j + 1 - i))) else none
  | some _, none => none
  | none, _ => none

/-- Sanitisation of the parsed packages field (dependency_analyzer.py lines
150-157): when the field is present and a list, null entries are dropped and
the rest coerced to strings; otherwise the static import list is substituted. -/
def sanitizePackages (j : LLMJson) (imports : List String) : List String :=
  match j.packages with
  | some l => l.filterMap id
  | none => imports

/-- The manifest every fallback path of enhance_with_llm produces: a dict
holding only the packages key, set to the static import list.  The
static import set contains only non-null strings, so the source expressions
list(imports) and the comprehension str(pkg) for non-null pkg both embed to
the list itself. -/
def fallbackManifest (imports : List String) : Manifest :=
  { packages := imports, system_dependencies := [], python_version := none }

/-- DependencyAnalyzer.enhance_with_llm (dependency_analyzer.py lines 54-183).
loads models json.loads on the extracted payload (none when parsing raises,
which the surrounding try catches); reply models the Groq collaborator. -/
def enhance_with_llm (loads : String → Option LLMJson) (cfg : LLMConfig)
    (func : PyFunc) (imports : List String) (reply : GroqReply) :
    Except PyError Manifest :=
  if cfg.llm_enabled = false then
    Except.ok (fallbackManifest imports)
  else
    match func.source with
    | none => Except.error PyError.oserror
    | some _ =>
      if apiKeyTruthy cfg = false then
        Except.ok (fallbackManifest imports)
      else if cfg.llm_provider = "groq" ∧ cfg.has_groq = true then
        match reply with
        | GroqReply.clientError => Except.ok (fallbackManifest imports)
        | GroqReply.apiError => Except.ok (fallbackManifest imports)
        | GroqReply.response text =>
          match jsonSpan text with
          | some payload =>
            match loads payload with
            | some j =>
              Except.ok { packages := sanitizePackages j imports,
                          system_dependencies := j.system_dependencies,
                          python_version := j.python_version }
            | none => Except.ok (fallbackManifest imports)
          | none => Except.ok (fallbackManifest imports)
      else
        Except.ok (fallbackManifest imports)

/-- Dependency resolution as the wrapper performs it (core.py lines 104-110):
enhance_with_llm inside a try that catches every exception and falls back to
the static import list. -/
def resolveDependencies (loads : String → Option LLMJson) (cfg : LLMConfig)
    (func : PyFunc) (imports : List String) (reply : GroqReply) : Manifest :=
  match enhance_with_llm loads cfg func imports reply with
  | Except.ok m => m
  | Except.error _ => fallbackManifest imports

/-- Under any of the fallback conditions of claim C4, enhance_with_llm either
returns the static fallback manifest or (only when the source text is not
retrievable) raises the source-retrieval error. -/
theorem enhance_with_llm_fallback (loads : String → Option LLMJson)
    (cfg : LLMConfig) (func : PyFunc) (imports : List String) (reply : GroqReply)
    (h : cfg.llm_enabled = false
       ∨ apiKeyTruthy cfg = false
       ∨ ¬(cfg.llm_provider = "groq" ∧ cfg.has_groq = true)
       ∨ reply = GroqReply.clientError
       ∨ reply = GroqReply.apiError
       ∨ ∃ text, reply = GroqReply.response text ∧ jsonSpan text = none) :
    enhance_with_llm loads cfg func imports reply = Except.ok (fallbackManifest imports)
    ∨ (func.source = none
       ∧ enhance_with_llm loads cfg func imports reply = Except.error PyError.oserror) := by
  unfold enhance_with_llm
  cases hen : cfg.llm_enabled with
  | false => left; simp
  | true =>
    cases hsrc : func.source with
    | none => right; exact ⟨rfl, by simp⟩
    | some src =>
      cases hkey : apiKeyTruthy cfg with
      | false => left; simp
      | true =>
        by_cases hp : cfg.llm_provider = "groq" ∧ cfg.has_groq = true
        · cases reply with
          | clientError => left; simp [hp]
          | apiError => left; simp [hp]
          | response text =>
            have hspan : jsonSpan text = none := by
              rcases h with h | h | h | h | h | ⟨t, ht, hs⟩
              · rw [hen] at h; exact Bool.noConfusion h
              · rw [hkey] at h; exact Bool.noConfusion h
              · exact absurd hp h
              · exact GroqReply.noConfusion h
              · exact GroqReply.noConfusion h
              · cases ht; exact hs
            left; simp [hp, hspan]
        · left; simp [hp]

/-- C4: whenever enrichment is disabled, or no API key is configured, or the
provider is unavailable (the groq package missing or another provider
selected), or the provider raises at client creation or during the request,
or no JSON payload can be located in the response text, dependency resolution
yields a manifest whose packages equal the static import set, and
enhance_with_llm itself returns normally whenever the source text is
retrievable, so no enrichment error ever reaches the caller. -/
theorem c4_theorem (loads : String → Option LLMJson) (cfg : LLMConfig)
    (func : PyFunc) (imports : List String) (reply : GroqReply)
    (h : cfg.llm_enabled = false
       ∨ apiKeyTruthy cfg = false
       ∨ ¬(cfg.llm_provider = "groq" ∧ cfg.has_groq = true)
       ∨ reply = GroqReply.clientError
       ∨ reply = GroqReply.apiError
       ∨ ∃ text, reply = GroqReply.response text ∧ jsonSpan text = none) :
    (resolveDependencies loads cfg func imports reply).packages.toFinset = imports.toFinset
    ∧ ∀ src, func.source = some src →
        enhance_with_llm loads cfg func imports reply =
          Except.ok (resolveDependencies loads cfg func imports reply) := by
  rcases enhance_with_llm_fallback loads cfg func imports reply h with he | ⟨hn, he⟩
  · constructor
    · unfold resolveDependencies
      rw [he]
      rfl
    · intro src hsrc
      unfold resolveDependencies
      rw [he]
  · constructor
    · unfold resolveDependencies
      rw [he]
      rfl
    · intro src hsrc
      rw [hn] at hsrc
      exact Option.noConfusion hsrc

/-- C4 witness: a concrete run in which the provider responds with text
holding no JSON payload still yields exactly the static import set. -/
theorem c4_witness :
    (resolveDependencies (fun _ => none)
        { llm_enabled := true, llm_api_key := some "k", llm_provider := "groq", has_groq := true }
        { name := some "f", module := some "m",
          source := some { text := "import os", importNodes := [ImportNode.imp ["os"]] } }
        ["os"] (GroqReply.response "no json here")).packages.toFinset
      = (["os"] : List String).toFinset :=
  (c4_theorem (fun _ => none)
    { llm_enabled := true, llm_api_key := some "k", llm_provider := "groq", has_groq := true }
    { name := some "f", module := some "m",
      source := some { text := "import os", importNodes := [ImportNode.imp ["os"]] } }
    ["os"] (GroqReply.response "no json here")
    (Or.inr (Or.inr (Or.inr (Or.inr (Or.inr ⟨"no json here", rfl, by decide⟩)))))).1

/-- The deployment state the wrapper staples onto the function object
(core.py lines 96-133): the _fc_deployed flag (absence of the attribute and
False collapse, since the code only ever assigns True), the cached _fc_url,
and whether _fc_modal_func has been assigned. -/
structure FuncState where
  fc_deployed : Bool
  fc_url : Option String
  fc_modal_func : Bool
  deriving DecidableEq, Repr

/-- The state of a freshly wrapped function: no attribute set yet. -/
def FuncState.start : FuncState :=
  { fc_deployed := false, fc_url := none, fc_modal_func := false }

/-- Outcome of one pass through the deployment block (core.py lines 100-124):
all steps (dependency analysis, enhance-or-fallback, create_modal_function,
deploy_function) succeeded and deploy_function returned a URL; or some step
raised ImportError (caught at line 125); or some step raised an exception
that is not an ImportError (uncaught, e.g. the OSError from
inspect.getsource inside analyze_imports). -/
inductive StepOutcome where
  | ok (url : String) : StepOutcome
  | importError : StepOutcome
  | otherError : StepOutcome
  deriving DecidableEq, Repr

/-- Result of one call of the wrapped function: the original function ran
locally and its value is returned, or an exception propagated out of the
wrapper. -/
inductive CallResult (α : Type) where
  | returns (v : α) : CallResult α
  | raises : CallResult α
  deriving DecidableEq, Repr

/-- The degraded fallback URL assigned in the ImportError handler
(core.py line 130). -/
def wrapper_fallback_url (module name : String) : String :=
  "https://example.com/" ++ module ++ "." ++ name

/-- One call of FC.function.wrapper (core.py lines 97-133) on a function with
the given module, name and local return value v: if the deployed flag is set
the deployment block is skipped and the function runs locally; otherwise the
block runs with the given outcome.  The third component counts whether the
deployment steps were entered on this call. -/
def invoke {α : Type} (module name : String) (v : α) (st : FuncState)
    (out : StepOutcome) : CallResult α × FuncState × Nat :=
  if st.fc_deployed then (CallResult.returns v, st, 0)
  else
    match out with
    | StepOutcome.ok url =>
        (CallResult.returns v,
         { fc_deployed := true, fc_url := some url, fc_modal_func := true }, 1)
    | StepOutcome.importError =>
        (CallResult.returns v,
         { fc_deployed := true, fc_url := some (wrapper_fallback_url module name),
           fc_modal_func := st.fc_modal_func }, 1)
    | StepOutcome.otherError => (CallResult.raises, st, 1)

/-- N successive calls of the wrapped function, one deployment outcome per
call; returns the call results, the final state, and how many calls entered
the deployment steps. -/
def runCalls {α : Type} (module name : String) (v : α) :
    FuncState → List StepOutcome → List (CallResult α) × FuncState × Nat
  | st, [] => ([], st, 0)
  | st, o :: rest =>
    let head := invoke module name v st o
    let tail := runCalls module name v head.2.1 rest
    (head.1 :: tail.1, tail.2.1, head.2.2 + tail.2.2)

/-- The function state observed after each successive call. -/
def statesAfter {α : Type} (module name : String) (v : α) :
    FuncState → List StepOutcome → List FuncState
  | _, [] => []
  | st, o :: rest =>
    let st1 := (invoke module name v st o).2.1
    st1 :: statesAfter module name v st1 rest

/-- wrapper.get_url (core.py lines 136-139): ValueError before any URL has
been attached, otherwise the cached URL. -/
def get_url (st : FuncState) : Except PyError String :=
  match st.fc_url with
  | none => Except.error PyError.valueError
  | some u => Except.ok u

/-- Once the deployed flag is set, a call skips the deployment block and
leaves the state untouched. -/
theorem invoke_deployed {α : Type} (module name : String) (v : α)
    (st : FuncState) (out : StepOutcome) (h : st.fc_deployed = true) :
    invoke module name v st out = (CallResult.returns v, st, 0) := by
  simp [invoke, h]

/-- Every run from a deployed state performs no further deployment attempt
and never changes the state. -/
theorem runCalls_deployed {α : Type} (module name : String) (v : α)
    (st : FuncState) (outs : List StepOutcome) (h : st.fc_deployed = true) :
    runCalls module name v st outs
      = (List.replicate outs.length (CallResult.returns v), st, 0) := by
  induction outs with
  | nil => rfl
  | cons o rest ih =>
    simp [runCalls, invoke_deployed module name v st o h, ih, List.replicate_succ]

/-- From a deployed state every later observed state is that same state. -/
theorem statesAfter_deployed {α : Type} (module name : String) (v : α)
    (st : FuncState) (outs : List StepOutcome) (h : st.fc_deployed = true) :
    statesAfter module name v st outs = List.replicate outs.length st := by
  induction outs with
  | nil => rfl
  | cons o rest ih =>
    simp [statesAfter, invoke_deployed module name v st o h, ih, List.replicate_succ]

/-- The first call on a fresh function always enters the deployment steps. -/
theorem invoke_start_count {α : Type} (module name : String) (v : α)
    (out : StepOutcome) :
    (invoke module name v FuncState.start out).2.2 = 1 := by
  cases out <;> simp [invoke, FuncState.start]

/-- C1 counterexample: when the first deployment attempt raises an exception
that is not an ImportError (for instance the OSError raised by
inspect.getsource inside analyze_imports), the flag stays unset and a second
invocation runs the deployment steps again, so two invocations execute the
deployment steps twice, refuting at most once per process lifetime. -/
theorem c1_counterexample :
    ¬((runCalls "mod" "f" (0 : Nat) FuncState.start
        [StepOutcome.otherError, StepOutcome.ok "https://fc_app--mod-f-1a2b3c4d.modal.run"]).2.2 ≤ 1) := by
  decide

/-- C1 amended: provided no deployment step raises an exception other than
ImportError during any invocation, N invocations (N at least 1) of the
wrapped function execute the deployment steps exactly once: the _fc_deployed
flag checked at line 99 is set at the end of the first call, every later
observed state equals the state after the first call, and get_url returns
one identical URL after every invocation. -/
theorem c1_theorem {α : Type} (module name : String) (v : α)
    (o : StepOutcome) (rest : List StepOutcome)
    (h : ∀ x ∈ o :: rest, x ≠ StepOutcome.otherError) :
    (runCalls module name v FuncState.start (o :: rest)).2.2 = 1
    ∧ ∃ u, ∀ s ∈ statesAfter module name v FuncState.start (o :: rest),
        s = (invoke module name v FuncState.start o).2.1 ∧ get_url s = Except.ok u := by
  have h1 : o ≠ StepOutcome.otherError := h o (List.mem_cons_self o rest)
  have hd : ((invoke module name v FuncState.start o).2.1).fc_deployed = true := by
    cases o with
    | ok url => simp [invoke, FuncState.start]
    | importError => simp [invoke, FuncState.start]
    | otherError => exact absurd rfl h1
  have hu : ∃ u, ((invoke module name v FuncState.start o).2.1).fc_url = some u := by
    cases o with
    | ok url => exact ⟨url, by simp [invoke, FuncState.start]⟩
    | importError => exact ⟨wrapper_fallback_url module name, by simp [invoke, FuncState.start]⟩
    | otherError => exact absurd rfl h1
  obtain ⟨u, hu⟩ := hu
  constructor
  · simp [runCalls,
      runCalls_deployed module name v _ rest hd, invoke_start_count module name v o]
  · refine ⟨u, ?_⟩
    intro s hs
    have hmem : s = (invoke module name v FuncState.start o).2.1 := by
      rw [statesAfter, statesAfter_deployed module name v _ rest hd] at hs
      rcases List.mem_cons.mp hs with h2 | h2
      · exact h2
      · exact List.eq_of_mem_replicate h2
    refine ⟨hmem, ?_⟩
    rw [hmem]
    simp [get_url, hu]

/-- C1 witness: two successful invocations make exactly one deployment and
every observed state carries the first URL. -/
theorem c1_witness :
    (runCalls "m" "f" (3 : Nat) FuncState.start
        [StepOutcome.ok "https://fc_app--m-f-11112222.modal.run", StepOutcome.importError]).2.2 = 1
    ∧ ∃ u, ∀ s ∈ statesAfter "m" "f" (3 : Nat) FuncState.start
          [StepOutcome.ok "https://fc_app--m-f-11112222.modal.run", StepOutcome.importError],
        s = (invoke "m" "f" (3 : Nat) FuncState.start
              (StepOutcome.ok "https://fc_app--m-f-11112222.modal.run")).2.1
        ∧ get_url s = Except.ok u :=
  c1_theorem "m" "f" (3 : Nat) (StepOutcome.ok "https://fc_app--m-f-11112222.modal.run")
    [StepOutcome.importError] (by decide)

/-- C2 counterexample: a deployment failure whose exception is not an
ImportError propagates out of the wrapped call (the original function does
not run) and leaves the function unmarked, refuting the claim that every
deployment failure still returns the local result and marks the function
deployed. -/
theorem c2_counterexample :
    (invoke "mod" "g" (7 : Nat) FuncState.start StepOutcome.otherError).1 = CallResult.raises
    ∧ ((invoke "mod" "g" (7 : Nat) FuncState.start StepOutcome.otherError).2.1).fc_deployed = false := by
  decide

/-- C2 amended: on the first call, a deployment failure raising ImportError
still executes the original function locally, returns its value, and marks
the function deployed with the degraded fallback URL
https://example.com/module.name, so no later call retries deployment; a
failure raising any other exception instead propagates out of the call,
executes nothing locally, and leaves the function unmarked; and any call on
an already-deployed function returns the local value with no deployment
attempt. -/
theorem c2_theorem {α : Type} (module name : String) (v : α) :
    invoke module name v FuncState.start StepOutcome.importError
      = (CallResult.returns v,
         { fc_deployed := true, fc_url := some (wrapper_fallback_url module name),
           fc_modal_func := false }, 1)
    ∧ invoke module name v FuncState.start StepOutcome.otherError
      = (CallResult.raises, FuncState.start, 1)
    ∧ ∀ st out, st.fc_deployed = true →
        invoke module name v st out = (CallResult.returns v, st, 0) := by
  refine ⟨by simp [invoke, FuncState.start], by simp [invoke, FuncState.start], ?_⟩
  intro st out hd
  exact invoke_deployed module name v st out hd

/-- C2 witness: the amended statement evaluated on a concrete function named
m.add returning 5, plus one call on an already-deployed state. -/
theorem c2_witness :
    invoke "m" "add" (5 : Nat) FuncState.start StepOutcome.importError
      = (CallResult.returns 5,
         { fc_deployed := true, fc_url := some "https://example.com/m.add",
           fc_modal_func := false }, 1)
    ∧ invoke "m" "add" (5 : Nat)
        { fc_deployed := true, fc_url := some "https://u", fc_modal_func := true }
        (StepOutcome.ok "https://w")
      = (CallResult.returns 5,
         { fc_deployed := true, fc_url := some "https://u", fc_modal_func := true }, 0) :=
  ⟨(( c2_theorem "m" "add" (5 : Nat)).1).trans (by decide),
   ( c2_theorem "m" "add" (5 : Nat)).2.2 _ (StepOutcome.ok "https://w") rfl⟩

/-- FCURLManager.generate_url_path (url_manager.py lines 15-52).  The
hashlib.md5 hex digest is the external digest function passed explicitly;
the degraded branch for an unretrievable source hashes the current timestamp
joined with a random numeral string, both passed explicitly.  Name and
module fall back to the placeholders of lines 31 and 37 when the attribute
is missing. -/
def generate_url_path (md5_hexdigest : String → String) (func : PyFunc)
    (timestamp random_str : String) : String :=
  let name := func.name.getD "function"
  let module := func.module.getD "playground"
  let source_hash :=
    match func.source with
    | some src => (md5_hexdigest src.text).take 8
    | none => (md5_hexdigest (timestamp ++ "_" ++ random_str)).take 8
  module ++ "." ++ name ++ "-" ++ source_hash

/-- Python func_path.replace with every dot replaced by a hyphen. -/
def pyReplaceDots (s : String) : String :=
  String.mk (s.data.map (fun c => if c = '.' then '-' else c))

/-- FCURLManager.function_to_endpoint (url_manager.py lines 54-66); the
configured FCConfig.stub_name is passed explicitly. -/
def function_to_endpoint (stub_name func_path : String) : String :=
  "https://" ++ stub_name ++ "--" ++ pyReplaceDots func_path ++ ".modal.run"

/-- C5: for functions with retrievable source, generate_url_path depends only
on the digest of the source text and the name and module attributes, never on
the timestamp or random inputs, so two calls on functions with identical
source text, module and name agree across repeated calls and process
restarts; the path is module.name-hash with hash the first 8 characters of
the hex digest of the source; and function_to_endpoint therefore yields the
identical endpoint URL. -/
theorem c5_theorem (md5_hexdigest : String → String) (f1 f2 : PyFunc)
    (s1 s2 : PySource) (t1 r1 t2 r2 : String)
    (h1 : f1.source = some s1) (h2 : f2.source = some s2)
    (hs : s1.text = s2.text) (hn : f1.name = f2.name) (hm : f1.module = f2.module) :
    generate_url_path md5_hexdigest f1 t1 r1 = generate_url_path md5_hexdigest f2 t2 r2
    ∧ (∀ n m, f1.name = some n → f1.module = some m →
        generate_url_path md5_hexdigest f1 t1 r1
          = m ++ "." ++ n ++ "-" ++ (md5_hexdigest s1.text).take 8)
    ∧ ∀ stub, function_to_endpoint stub (generate_url_path md5_hexdigest f1 t1 r1)
        = function_to_endpoint stub (generate_url_path md5_hexdigest f2 t2 r2) := by
  have key : generate_url_path md5_hexdigest f1 t1 r1
      = generate_url_path md5_hexdigest f2 t2 r2 := by
    simp [generate_url_path, h1, h2, hs, hn, hm]
  refine ⟨key, ?_, fun stub => by rw [key]⟩
  intro n m hn1 hm1
  simp [generate_url_path, h1, hn1, hm1]

/-- Source text of a concrete function used as a witness input. -/
def addSrc : PySource :=
  { text := "def add(a, b):", importNodes := [] }

/-- A concrete function object named calc.add with retrievable source. -/
def addFunc : PyFunc :=
  { name := some "add", module := some "calc", source := some addSrc }

/-- C5 witness: the identity digest and the concrete function calc.add give
the same path and the same endpoint for two different timestamp and random
inputs. -/
theorem c5_witness :
    generate_url_path (fun s => s) addFunc "100.0" "1111"
      = generate_url_path (fun s => s) addFunc "200.0" "2222"
    ∧ generate_url_path (fun s => s) addFunc "100.0" "1111"
      = "calc" ++ "." ++ "add" ++ "-" ++ addSrc.text.take 8
    ∧ function_to_endpoint "fc_app" (generate_url_path (fun s => s) addFunc "100.0" "1111")
      = function_to_endpoint "fc_app" (generate_url_path (fun s => s) addFunc "200.0" "2222") :=
  ⟨(c5_theorem (fun s => s) addFunc addFunc addSrc addSrc "100.0" "1111" "200.0" "2222"
      rfl rfl rfl rfl rfl).1,
   (c5_theorem (fun s => s) addFunc addFunc addSrc addSrc "100.0" "1111" "200.0" "2222"
      rfl rfl rfl rfl rfl).2.1 "add" "calc" rfl rfl,
   (c5_theorem (fun s => s) addFunc addFunc addSrc addSrc "100.0" "1111" "200.0" "2222"
      rfl rfl rfl rfl rfl).2.2 "fc_app"⟩

/-- C9: function_to_endpoint is the pure string template
https:// stub_name -- path-with-dots-replaced .modal.run: its characters are
exactly the concatenation of the five parts, the replaced path segment has
every dot replaced by a hyphen (no dot survives), and the result length is
determined additively, so an empty stub name still yields the well-formed
template string with an empty segment. -/
theorem c9_theorem (stub_name func_path : String) :
    function_to_endpoint stub_name func_path
      = "https://" ++ stub_name ++ "--" ++ pyReplaceDots func_path ++ ".modal.run"
    ∧ (pyReplaceDots func_path).data
        = func_path.data.map (fun c => if c = '.' then '-' else c)
    ∧ (∀ c ∈ (pyReplaceDots func_path).data, c ≠ '.')
    ∧ (function_to_endpoint stub_name func_path).data
        = "https://".data ++ stub_name.data ++ "--".data
          ++ (pyReplaceDots func_path).data ++ ".modal.run".data
    ∧ (function_to_endpoint stub_name func_path).length
        = stub_name.length + func_path.length + 20 := by
  refine ⟨rfl, rfl, ?_, ?_, ?_⟩
  · intro c hc
    rcases List.mem_map.mp hc with ⟨a, _, ha⟩
    by_cases h : a = '.'
    · rw [← ha]; simp [h]
    · rw [← ha]; simp [h]
  · simp [function_to_endpoint, String.data_append]
  · have hd : (function_to_endpoint stub_name func_path).data
        = "https://".data ++ stub_name.data ++ "--".data
          ++ (pyReplaceDots func_path).data ++ ".modal.run".data := by
      simp [function_to_endpoint, String.data_append]
    have h2 := congrArg List.length hd
    simp only [List.length_append] at h2
    have hp : (pyReplaceDots func_path).data.length = func_path.data.length := by
      simp [pyReplaceDots]
    have e1 : ("https://".data).length = 8 := rfl
    have e2 : ("--".data).length = 2 := rfl
    have e3 : (".modal.run".data).length = 10 := rfl
    have hq : (function_to_endpoint stub_name func_path).length
        = (function_to_endpoint stub_name func_path).data.length := rfl
    have hs1 : stub_name.length = stub_name.data.length := rfl
    have hs2 : func_path.length = func_path.data.length := rfl
    rw [hq, hs1, hs2, h2, hp, e1, e2, e3]
    omega

/-- C9 witness: the template evaluated on a concrete stub and path, and on
the empty stub name. -/
theorem c9_witness :
    function_to_endpoint "fc_app" "calc.add-1a2b3c4d"
      = "https://fc_app--calc-add-1a2b3c4d.modal.run"
    ∧ function_to_endpoint "" "a.b" = "https://--a-b.modal.run" :=
  ⟨( c9_theorem "fc_app" "calc.add-1a2b3c4d").1.trans (by decide),
   ( c9_theorem "" "a.b").1.trans (by decide)⟩

/-- One token record as FCAuth._save_token persists it
(auth/__init__.py lines 104-110); times are seconds. -/
structure TokenRecord where
  token : String
  created_at : Nat
  expires_at : Nat
  active : Bool
  deriving DecidableEq, Repr

/-- The tokens.json content: record id to token record, in insertion order
(Python dicts preserve insertion order). -/
abbrev TokenStore := List (String × TokenRecord)

/-- Thirty days in seconds (auth/__init__.py line 108). -/
def thirtyDays : Nat := 30 * 24 * 60 * 60

/-- FCAuth.generate_token followed by _save_token (auth/__init__.py lines
78-114): the token value produced by secrets.token_hex and the uuid4 record
id are explicit inputs; a record with expiry now plus thirty days and active
True is stored under the fresh id. -/
def save_token (store : TokenStore) (token_id token : String) (now : Nat) : TokenStore :=
  store ++ [(token_id,
    { token := token, created_at := now, expires_at := now + thirtyDays, active := true })]

/-- FCAuth.validate_token (auth/__init__.py lines 132-151): scan all records;
valid iff some record carries the token value, is active, and its expiry
lies strictly in the future. -/
def validate_token (store : TokenStore) (token : String) (now : Nat) : Bool :=
  store.any (fun p => p.2.token == token && p.2.active && decide (now < p.2.expires_at))

/-- FCAuth.revoke_token (auth/__init__.py lines 153-176): walk the records in
order; at the first record carrying the token value set active to False and
return True; return False when no record matches.  No record is removed. -/
def revoke_token : TokenStore → String → Bool × TokenStore
  | [], _ => (false, [])
  | (tid, r) :: rest, token =>
    if r.token == token then
      (true, (tid, { r with active := false }) :: rest)
    else
      ((revoke_token rest token).1, (tid, r) :: (revoke_token rest token).2)

/-- revoke_token reports a match exactly when some record carries the token. -/
theorem revoke_token_fst (store : TokenStore) (token : String) :
    (revoke_token store token).1 = true ↔ ∃ p ∈ store, p.2.token = token := by
  induction store with
  | nil => simp [revoke_token]
  | cons hd rest ih =>
    obtain ⟨tid, r⟩ := hd
    by_cases hr : (r.token == token) = true
    · have he : r.token = token := by simpa using hr
      simp only [revoke_token, hr, if_true]
      simp only [true_iff]
      exact ⟨(tid, r), List.mem_cons_self _ _, he⟩
    · have hne : r.token ≠ token := by simpa using hr
      rw [show (revoke_token ((tid, r) :: rest) token).1 = (revoke_token rest token).1 from by
        simp [revoke_token, hr]]
      rw [ih]
      constructor
      · rintro ⟨p, hp, he⟩
        exact ⟨p, List.mem_cons_of_mem _ hp, he⟩
      · rintro ⟨p, hp, he⟩
        rcases List.mem_cons.mp hp with rfl | hp2
        · exact absurd he hne
        · exact ⟨p, hp2, he⟩

/-- revoke_token never deletes nor inserts records. -/
theorem revoke_token_length (store : TokenStore) (token : String) :
    (revoke_token store token).2.length = store.length := by
  induction store with
  | nil => rfl
  | cons hd rest ih =>
    obtain ⟨tid, r⟩ := hd
    by_cases hr : (r.token == token) = true
    · simp [revoke_token, hr]
    · simp [revoke_token, hr, ih]

/-- When no record matches, revoke_token leaves the store untouched. -/
theorem revoke_token_not_found (store : TokenStore) (token : String)
    (h : (revoke_token store token).1 = false) :
    (revoke_token store token).2 = store := by
  induction store with
  | nil => rfl
  | cons hd rest ih =>
    obtain ⟨tid, r⟩ := hd
    by_cases hr : (r.token == token) = true
    · rw [show (revoke_token ((tid, r) :: rest) token).1 = true from by simp [revoke_token, hr]] at h
      exact Bool.noConfusion h
    · have h2 : (revoke_token rest token).1 = false := by
        rw [show (revoke_token ((tid, r) :: rest) token).1 = (revoke_token rest token).1 from by
          simp [revoke_token, hr]] at h
        exact h
      simp [revoke_token, hr, ih h2]

/-- When a record matches, revoke_token flips active to False on the first
matching record, keeps its other fields and every other record unchanged. -/
theorem revoke_token_found (store : TokenStore) (token : String)
    (h : (revoke_token store token).1 = true) :
    ∃ i, ∃ hi : i < store.length,
      (store[i]).2.token = token
      ∧ (revoke_token store token).2
          = store.set i ((store[i]).1, { (store[i]).2 with active := false })
      ∧ ∀ j, j ≠ i → (revoke_token store token).2[j]? = store[j]? := by
  induction store with
  | nil => exact Bool.noConfusion h
  | cons hd rest ih =>
    obtain ⟨tid, r⟩ := hd
    by_cases hr : (r.token == token) = true
    · refine ⟨0, Nat.succ_pos _, by simpa using hr, ?_, ?_⟩
      · simp [revoke_token, hr]
      · intro j hj
        cases j with
        | zero => exact absurd rfl hj
        | succ k => simp [revoke_token, hr]
    · have h2 : (revoke_token rest token).1 = true := by
        rw [show (revoke_token ((tid, r) :: rest) token).1 = (revoke_token rest token).1 from by
          simp [revoke_token, hr]] at h
        exact h
      obtain ⟨i, hi, htok, hset, hother⟩ := ih h2
      refine ⟨i + 1, Nat.succ_lt_succ hi, by simpa using htok, ?_, ?_⟩
      · simp only [revoke_token, hr, if_false]
        simp [List.getElem_cons_succ, hset]
      · intro j hj
        cases j with
        | zero => simp [revoke_token, hr]
        | succ k =>
          have hk : k ≠ i := fun he => hj (by rw [he])
          simp only [revoke_token, hr, if_false]
          simp [List.getElem?_cons_succ, hother k hk]

/-- After revoking, a token value that occurred on at most one record never
validates again. -/
theorem validate_after_revoke (store : TokenStore) (token : String) (now : Nat)
    (h : (store.filter (fun p => p.2.token == token)).length ≤ 1) :
    validate_token (revoke_token store token).2 token now = false := by
  induction store with
  | nil => rfl
  | cons hd rest ih =>
    obtain ⟨tid, r⟩ := hd
    by_cases hr : (r.token == token) = true
    · have hlen0 : (rest.filter (fun p => p.2.token == token)).length = 0 := by
        rw [List.filter_cons] at h
        simp only [hr, if_true, List.length_cons] at h
        omega
      have hrest : rest.filter (fun p => p.2.token == token) = [] :=
        List.length_eq_zero.mp hlen0
      have hnone : ∀ p ∈ rest, (p.2.token == token) = false := by
        intro p hp
        by_contra hc
        rw [Bool.not_eq_false] at hc
        have hmem : p ∈ rest.filter (fun p => p.2.token == token) :=
          List.mem_filter.mpr ⟨hp, hc⟩
        rw [hrest] at hmem
        exact absurd hmem (List.not_mem_nil p)
      simp only [revoke_token, hr, if_true]
      simp only [validate_token, List.any_cons, Bool.or_eq_false_iff]
      constructor
      · simp
      · rw [List.any_eq_false]
        intro p hp
        simp [hnone p hp]
    · have h2 : (rest.filter (fun p => p.2.token == token)).length ≤ 1 := by
        rw [List.filter_cons] at h
        simp only [hr, if_false] at h
        exact h
      have htail := ih h2
      have hstep : (revoke_token ((tid, r) :: rest) token).2
          = (tid, r) :: (revoke_token rest token).2 := by
        simp [revoke_token, hr]
      rw [hstep]
      simp only [validate_token, List.any_cons, Bool.or_eq_false_iff]
      refine ⟨by simp [hr], ?_⟩
      simpa [validate_token] using htail

/-- C6: token lifecycle on one FCAuth store: a token saved at time tgen
validates at every instant strictly before tgen plus thirty days; after
revoke_token, a token value held by at most one record never validates; an
expired record fails validation even while active; and in general a token
validates exactly when some record carries it, is active, and is unexpired. -/
theorem c6_theorem (store : TokenStore) (token_id token : String) (tgen now : Nat) :
    (now < tgen + thirtyDays →
      validate_token (save_token store token_id token tgen) token now = true)
    ∧ ((store.filter (fun p => p.2.token == token)).length ≤ 1 →
      validate_token (revoke_token store token).2 token now = false)
    ∧ ((∀ p ∈ store, p.2.token = token → p.2.expires_at ≤ now) →
      validate_token store token now = false)
    ∧ (validate_token store token now = true ↔
      ∃ p ∈ store, p.2.token = token ∧ p.2.active = true ∧ now < p.2.expires_at) := by
  refine ⟨?_, ?_, ?_, ?_⟩
  · intro h
    simp [validate_token, save_token, List.any_append, h]
  · exact validate_after_revoke store token now
  · intro hexp
    unfold validate_token
    rw [List.any_eq_false]
    intro p hp
    simp only [Bool.and_eq_true, beq_iff_eq, decide_eq_true_eq, not_and]
    intro h1
    have := hexp p hp h1.1
    omega
  · unfold validate_token
    rw [List.any_eq_true]
    constructor
    · rintro ⟨p, hp, hpred⟩
      simp only [Bool.and_eq_true, beq_iff_eq, decide_eq_true_eq] at hpred
      exact ⟨p, hp, hpred.1.1, hpred.1.2, hpred.2⟩
    · rintro ⟨p, hp, h1, h2, h3⟩
      refine ⟨p, hp, ?_⟩
      simp [h1, h2, h3]

/-- C6 witness: generate then validate on an empty store, revoke then
validate, and an expired-but-active record, all at concrete times. -/
theorem c6_witness :
    validate_token (save_token [] "id1" "tok" 0) "tok" 5 = true
    ∧ validate_token (revoke_token (save_token [] "id1" "tok" 0) "tok").2 "tok" 5 = false
    ∧ validate_token
        [("id9", { token := "tok", created_at := 0, expires_at := 3, active := true })]
        "tok" 5 = false :=
  ⟨(c6_theorem [] "id1" "tok" 0 5).1 (by decide),
   (c6_theorem (save_token [] "id1" "tok" 0) "id1" "tok" 0 5).2.1 (by decide),
   (c6_theorem
      [("id9", { token := "tok", created_at := 0, expires_at := 3, active := true })]
      "id9" "tok" 0 5).2.2.1 (by decide)⟩

/-- C8: revoke_token returns True exactly when some record carries the token
value, never deletes or inserts a record, leaves the store untouched when no
record matches, and on a match flips only the active field of the first
matching record while every record at any other position is unchanged. -/
theorem c8_theorem (store : TokenStore) (token : String) :
    ((revoke_token store token).1 = true ↔ ∃ p ∈ store, p.2.token = token)
    ∧ (revoke_token store token).2.length = store.length
    ∧ ((revoke_token store token).1 = false → (revoke_token store token).2 = store)
    ∧ ((revoke_token store token).1 = true →
        ∃ i, ∃ hi : i < store.length,
          (store[i]).2.token = token
          ∧ (revoke_token store token).2
              = store.set i ((store[i]).1, { (store[i]).2 with active := false })
          ∧ ∀ j, j ≠ i → (revoke_token store token).2[j]? = store[j]?) :=
  ⟨revoke_token_fst store token, revoke_token_length store token,
   revoke_token_not_found store token, revoke_token_found store token⟩

/-- C8 witness: a concrete two-record store: revoking a held token keeps the
length; revoking an unknown token changes nothing. -/
theorem c8_witness :
    (revoke_token
        [("id1", { token := "t1", created_at := 0, expires_at := 100, active := true }),
         ("id2", { token := "t2", created_at := 0, expires_at := 100, active := true })]
        "t1").1 = true
    ∧ (revoke_token
        [("id1", { token := "t1", created_at := 0, expires_at := 100, active := true }),
         ("id2", { token := "t2", created_at := 0, expires_at := 100, active := true })]
        "t1").2.length = 2
    ∧ (revoke_token
        [("id1", { token := "t1", created_at := 0, expires_at := 100, active := true }),
         ("id2", { token := "t2", created_at := 0, expires_at := 100, active := true })]
        "zzz").2
      = [("id1", { token := "t1", created_at := 0, expires_at := 100, active := true }),
         ("id2", { token := "t2", created_at := 0, expires_at := 100, active := true })] :=
  ⟨(c8_theorem
      [("id1", { token := "t1", created_at := 0, expires_at := 100, active := true }),
       ("id2", { token := "t2", created_at := 0, expires_at := 100, active := true })]
      "t1").1.mpr
      ⟨("id1", { token := "t1", created_at := 0, expires_at := 100, active := true }),
       List.mem_cons_self _ _, rfl⟩,
   ((c8_theorem
      [("id1", { token := "t1", created_at := 0, expires_at := 100, active := true }),
       ("id2", { token := "t2", created_at := 0, expires_at := 100, active := true })]
      "t1").2.1).trans (by decide),
   (c8_theorem
      [("id1", { token := "t1", created_at := 0, expires_at := 100, active := true }),
       ("id2", { token := "t2", created_at := 0, expires_at := 100, active := true })]
      "zzz").2.2.1 (by decide)⟩

/-- The configuration slice of the OAuth flow (auth/__init__.py): whether the
optional oauth dependencies imported (HAS_OAUTH), whether the
WebApplicationClient was initialised (a Google client id was configured),
and the class-level REDIRECT_URL (line 35, non-empty by default). -/
structure AuthCfg where
  has_oauth : Bool
  client_inited : Bool
  redirect_url : String
  deriving DecidableEq, Repr

/-- The transient OAuth state storage: one state_nonce.json file per nonce in
the config directory, holding the persisted redirect URI; modelled as a
partial map from nonce to URI. -/
def StateStore : Type := String → Option String

/-- The redirect URI actually used: `self.REDIRECT_URL or redirect_uri`
(auth/__init__.py lines 195 and 276), i.e. the class-level URL when truthy,
else the caller-supplied argument. -/
def effectiveRedirect (cfg : AuthCfg) (redirect_uri : String) : String :=
  if cfg.redirect_url ≠ "" then cfg.redirect_url else redirect_uri

/-- Writing the state file for a nonce (auth/__init__.py lines 206-208). -/
def stateInsert (store : StateStore) (nonce uri : String) : StateStore :=
  fun k => if k = nonce then some uri else store k

/-- Removing the state file for a nonce (auth/__init__.py line 296). -/
def stateErase (store : StateStore) (nonce : String) : StateStore :=
  fun k => if k = nonce then none else store k

/-- The authorization request that prepare_request_uri builds
(auth/__init__.py lines 211-216). -/
structure AuthUrlReq where
  authorization_endpoint : String
  redirect_uri : String
  scope : List String
  state : String
  deriving DecidableEq, Repr

/-- FCAuth.get_google_auth_url (auth/__init__.py lines 178-218): ImportError
without the oauth dependencies, ValueError without an initialised client;
otherwise the caller-supplied redirect is replaced by REDIRECT_URL when that
is set, the state file nonce-to-redirect is written, and the authorization
URL with scopes openid, email, profile and the nonce as state parameter is
returned.  The nonce produced by secrets.token_hex(16) and the discovered
authorization endpoint are explicit inputs. -/
def get_google_auth_url (cfg : AuthCfg) (store : StateStore)
    (redirect_uri state authorization_endpoint : String) :
    Except PyError (AuthUrlReq × StateStore) :=
  if cfg.has_oauth = false then Except.error PyError.importError
  else if cfg.client_inited = false then Except.error PyError.valueError
  else
    Except.ok
      ({ authorization_endpoint := authorization_endpoint,
         redirect_uri := effectiveRedirect cfg redirect_uri,
         scope := ["openid", "email", "profile"],
         state := state },
       stateInsert store state (effectiveRedirect cfg redirect_uri))

/-- The state-consumption step of FCAuth.handle_google_callback
(auth/__init__.py lines 278-301): when the callback URL carries a state
parameter and the matching state file exists, a truthy stored redirect URI
overrides the current one and the file is removed; otherwise the current
redirect is kept and the store is unchanged. -/
def consumeState (store : StateStore) (state : Option String)
    (redirect_uri : String) : String × StateStore :=
  match state with
  | none => (redirect_uri, store)
  | some s =>
    match store s with
    | none => (redirect_uri, store)
    | some stored =>
      (if stored ≠ "" then stored else redirect_uri, stateErase store s)

/-- FCAuth.handle_google_callback up to the token exchange (auth/__init__.py
lines 269-301): the same dependency and client guards, the REDIRECT_URL
override, then state consumption; the resulting redirect URI is the one
passed to prepare_token_request. -/
def handle_google_callback_redirect (cfg : AuthCfg) (store : StateStore)
    (redirect_uri : String) (state : Option String) :
    Except PyError (String × StateStore) :=
  if cfg.has_oauth = false then Except.error PyError.importError
  else if cfg.client_inited = false then Except.error PyError.valueError
  else Except.ok (consumeState store state (effectiveRedirect cfg redirect_uri))

/-- C7: a state nonce persisted by get_google_auth_url is consumed at most
once: the first callback carrying it finds the persisted redirect URI and
deletes the state file, and a second callback with the same nonce does not
find it and leaves the store unchanged. -/
theorem c7_theorem (cfg : AuthCfg) (store : StateStore)
    (caller state endpoint r0 r1 : String)
    (h1 : cfg.has_oauth = true) (h2 : cfg.client_inited = true) :
    ∃ req store1 u1 store2,
      get_google_auth_url cfg store caller state endpoint = Except.ok (req, store1)
      ∧ store1 state = some (effectiveRedirect cfg caller)
      ∧ handle_google_callback_redirect cfg store1 r0 (some state)
          = Except.ok (u1, store2)
      ∧ store2 state = none
      ∧ handle_google_callback_redirect cfg store2 r1 (some state)
          = Except.ok (effectiveRedirect cfg r1, store2) := by
  refine ⟨{ authorization_endpoint := endpoint,
            redirect_uri := effectiveRedirect cfg caller,
            scope := ["openid", "email", "profile"],
            state := state },
          stateInsert store state (effectiveRedirect cfg caller),
          (if effectiveRedirect cfg caller ≠ "" then effectiveRedirect cfg caller
           else effectiveRedirect cfg r0),
          stateErase (stateInsert store state (effectiveRedirect cfg caller)) state,
          ?_, ?_, ?_, ?_, ?_⟩
  · simp [get_google_auth_url, h1, h2]
  · simp [stateInsert]
  · simp [handle_google_callback_redirect, h1, h2, consumeState, stateInsert]
  · simp [stateErase]
  · simp [handle_google_callback_redirect, h1, h2, consumeState, stateErase]

/-- C7 witness: a concrete flow with an empty store, configured client and
imported oauth dependencies. -/
theorem c7_witness :
    ∃ req store1 u1 store2,
      get_google_auth_url { has_oauth := true, client_inited := true, redirect_url := "" }
          (fun _ => none) "https://app/cb" "abc123" "https://accounts.google.com/auth"
        = Except.ok (req, store1)
      ∧ store1 "abc123"
          = some (effectiveRedirect
              { has_oauth := true, client_inited := true, redirect_url := "" } "https://app/cb")
      ∧ handle_google_callback_redirect
            { has_oauth := true, client_inited := true, redirect_url := "" }
            store1 "https://app/cb" (some "abc123")
          = Except.ok (u1, store2)
      ∧ store2 "abc123" = none
      ∧ handle_google_callback_redirect
            { has_oauth := true, client_inited := true, redirect_url := "" }
            store2 "https://app/cb2" (some "abc123")
          = Except.ok
              (effectiveRedirect
                { has_oauth := true, client_inited := true, redirect_url := "" } "https://app/cb2",
               store2) :=
  c7_theorem { has_oauth := true, client_inited := true, redirect_url := "" }
    (fun _ => none) "https://app/cb" "abc123" "https://accounts.google.com/auth"
    "https://app/cb" "https://app/cb2" rfl rfl

/-- C10: when the class-level REDIRECT_URL is a non-empty string, both
get_google_auth_url and handle_google_callback replace the caller-supplied
redirect_uri argument with it before use, so the argument has no effect on
the authorization request, the persisted state, or the redirect URI used in
the token exchange (short of a persisted state entry overriding it). -/
theorem c10_theorem (cfg : AuthCfg) (h : cfg.redirect_url ≠ "")
    (store : StateStore) (a b state endpoint : String) (st : Option String) :
    effectiveRedirect cfg a = cfg.redirect_url
    ∧ get_google_auth_url cfg store a state endpoint
        = get_google_auth_url cfg store b state endpoint
    ∧ handle_google_callback_redirect cfg store a st
        = handle_google_callback_redirect cfg store b st := by
  have he : ∀ x, effectiveRedirect cfg x = cfg.redirect_url := fun x => if_pos h
  refine ⟨he a, ?_, ?_⟩
  · simp [get_google_auth_url, he]
  · simp [handle_google_callback_redirect, he]

/-- C10 witness: with the default hard-coded REDIRECT_URL, two different
caller-supplied redirect URIs produce identical results. -/
theorem c10_witness :
    effectiveRedirect
        { has_oauth := true, client_inited := true,
          redirect_url := "https://clud-h9ao-saad-momin-s-projects.vercel.app/callback" }
        "https://attacker.example/cb"
      = "https://clud-h9ao-saad-momin-s-projects.vercel.app/callback"
    ∧ get_google_auth_url
        { has_oauth := true, client_inited := true,
          redirect_url := "https://clud-h9ao-saad-momin-s-projects.vercel.app/callback" }
        (fun _ => none) "https://attacker.example/cb" "n1" "https://accounts.google.com/auth"
      = get_google_auth_url
        { has_oauth := true, client_inited := true,
          redirect_url := "https://clud-h9ao-saad-momin-s-projects.vercel.app/callback" }
        (fun _ => none) "https://legit.example/cb" "n1" "https://accounts.google.com/auth"
    ∧ handle_google_callback_redirect
        { has_oauth := true, client_inited := true,
          redirect_url := "https://clud-h9ao-saad-momin-s-projects.vercel.app/callback" }
        (fun _ => none) "https://attacker.example/cb" none
      = handle_google_callback_redirect
        { has_oauth := true, client_inited := true,
          redirect_url := "https://clud-h9ao-saad-momin-s-projects.vercel.app/callback" }
        (fun _ => none) "https://legit.example/cb" none :=
  c10_theorem
    { has_oauth := true, client_inited := true,
      redirect_url := "https://clud-h9ao-saad-momin-s-projects.vercel.app/callback" }
    (by decide) (fun _ => none) "https://attacker.example/cb" "https://legit.example/cb"
    "n1" "https://accounts.google.com/auth" none
